import Mathlib

/- Shallow embedding of src/scheduler.py, the scheduling core of RxPython.

   Conventions of the embedding:
   - Python numbers used as times and as carried state are embedded as Int
     (Rat for Scheduler.normalize, whose claim ranges over all real inputs).
   - A raised Python exception is an explicit PyErr value; every effectful
     operation returns the raised error (if any) together with the resulting
     state and the list of action invocations it performed, so that raising
     with no side effect is expressible.
   - The PriorityQueue of a VirtualTimeScheduler is embedded as the list of
     its items in the order the queue would yield them.
   - Scheduled actions are embedded as inert recorded values: an invocation
     is recorded as the pair (carried state value, clock at invocation).
-/

/-- The Python exceptions the embedded code can raise: NameError (an
undefined name), TypeError (arity or protocol violation), AttributeError
(a missing attribute), queue.Empty (get_nowait on an empty queue), the
scheduler's own Argument-out-of-range exception, and faults raised by
user-supplied actions. -/
inductive PyErr where
  | nameError
  | typeError
  | attributeError
  | queueEmpty
  | argumentOutOfRange
  | userFault (n : Nat)
  deriving DecidableEq, Repr

/-- A disposable value as seen by scheduling calls: either the empty no-op
disposable or a concrete token. Modelled from the spec: the disposable
module is an external collaborator absent from src. -/
inductive DVal where
  | empty
  | token (n : Nat)
  deriving DecidableEq, Repr

/-- Embeds Scheduler.normalize (src/scheduler.py lines 51-56): a negative
time span is clamped to zero, any other is returned unchanged. -/
def Scheduler.normalize (timeSpan : Rat) : Rat :=
  if timeSpan < 0 then 0 else timeSpan

/-- Modelled from the spec: the module named internal (absent from src)
supplies defaultSubComparer, the default comparer for numeric times; it
returns a negative, zero or positive number as its first argument precedes,
equals or follows the second, realized by subtraction as its name states. -/
def defaultSubComparer (a b : Int) : Int := a - b

/-- An entry of a VirtualTimeScheduler's queue: the embedded ScheduledItem
(lines 653-676) carries a state value, a due time and its cancellation
token, embedded here by the token's disposed flag. -/
structure QItem where
  sval : Int
  dueTime : Int
  cancelled : Bool
  deriving DecidableEq, Repr

/-- The mutable state of a VirtualTimeScheduler (lines 399-409): the clock,
the isEnabled flag and the pending queue in pop order. -/
structure VTState where
  clock : Int
  isEnabled : Bool
  queue : List QItem
  deriving DecidableEq, Repr

/-- Outcome of the start drain loop: the raised exception if any, the final
clock, the remaining queue and the invocations performed. -/
structure RunResult where
  err : Option PyErr
  clock : Int
  queue : List QItem
  trace : List (Int × Int)
  deriving DecidableEq, Repr

/-- The clock update start performs before invoking a popped item (lines
442-443): the clock moves to the item's due time only when the comparer
says that due time is strictly later than the current clock; otherwise the
clock does not move. -/
def nextClock (cmp : Int → Int → Int) (clock due : Int) : Int :=
  if 0 < cmp due clock then due else clock

/-- The nextIsTooLate test of start (line 437): an until bound was given
and the popped item's due time is strictly after it. -/
def tooLate (cmp : Int → Int → Int) (u : Option Int) (due : Int) : Bool :=
  match u with
  | none => false
  | some ub => decide (0 < cmp due ub)

/-- Embeds the while loop of VirtualTimeScheduler.start (lines 435-445)
together with getNext (lines 472-481). getNext pops items, discarding
cancelled ones; on an exhausted queue, queue.get_nowait raises queue.Empty
(the comparison of its result with None at line 476 is dead code, since
get_nowait raises instead of returning None), and that exception escapes
the loop. A popped non-cancelled item that is too late is discarded and
the loop stops normally; otherwise the clock is advanced by nextClock and
the item is invoked. -/
def startLoop (cmp : Int → Int → Int) (u : Option Int) (clock : Int) :
    List QItem → RunResult
  | [] => ⟨some PyErr.queueEmpty, clock, [], []⟩
  | i :: rest =>
    if i.cancelled then startLoop cmp u clock rest
    else if tooLate cmp u i.dueTime then
      ⟨none, clock, rest, []⟩
    else
      let c' := nextClock cmp clock i.dueTime
      let r := startLoop cmp u c' rest
      ⟨r.err, r.clock, r.queue, (i.sval, c') :: r.trace⟩

/-- Embeds VirtualTimeScheduler.start (lines 431-448): a no-op when
isEnabled is already set; otherwise the drain loop runs with isEnabled set.
isEnabled ends false on a normal stop and remains true when the loop
escapes with an exception. -/
def VirtualTimeScheduler.start (cmp : Int → Int → Int) (u : Option Int)
    (s : VTState) : Option PyErr × VTState × List (Int × Int) :=
  if s.isEnabled then (none, s, [])
  else
    let r := startLoop cmp u s.clock s.queue
    (r.err, ⟨r.clock, r.err.isSome, r.queue⟩, r.trace)

/-- Embeds VirtualTimeScheduler.advanceTo (lines 450-459): a time that the
comparer places before the clock raises Argument-out-of-range before any
mutation; a time equal to the clock returns at once; a later time runs
start with that time as the until bound. -/
def VirtualTimeScheduler.advanceTo (cmp : Int → Int → Int) (t : Int)
    (s : VTState) : Option PyErr × VTState × List (Int × Int) :=
  if cmp t s.clock < 0 then (some PyErr.argumentOutOfRange, s, [])
  else if cmp t s.clock = 0 then (none, s, [])
  else VirtualTimeScheduler.start cmp (some t) s

/-- Embeds VirtualTimeScheduler.advanceBy (lines 461-462). -/
def VirtualTimeScheduler.advanceBy (cmp : Int → Int → Int)
    (addF : Int → Int → Int) (t : Int) (s : VTState) :
    Option PyErr × VTState × List (Int × Int) :=
  VirtualTimeScheduler.advanceTo cmp (addF s.clock t) s

/-- Embeds VirtualTimeScheduler.sleep (lines 464-470): raises unless the
target time is strictly later than the clock, otherwise moves the clock
there without invoking anything. -/
def VirtualTimeScheduler.sleep (cmp : Int → Int → Int)
    (addF : Int → Int → Int) (t : Int) (s : VTState) :
    Option PyErr × VTState × List (Int × Int) :=
  if 0 ≤ cmp s.clock (addF s.clock t) then (some PyErr.argumentOutOfRange, s, [])
  else (none, { s with clock := addF s.clock t }, [])

/-- Embeds VirtualTimeScheduler.scheduleAbsoluteWithState (lines 424-429).
Line 425 builds the ScheduledItem from the undefined name run (the
parameter is named action), so every call raises NameError before
queue.put executes, and the scheduler state is left unchanged. -/
def VirtualTimeScheduler.scheduleAbsoluteWithState (sval due : Int)
    (s : VTState) : Option PyErr × VTState × List (Int × Int) :=
  (some PyErr.nameError, s, [])

/-- Embeds VirtualTimeScheduler.scheduleRelativeWithState (lines 414-416):
computes the absolute run time with the subclass add and delegates to
scheduleAbsoluteWithState. -/
def VirtualTimeScheduler.scheduleRelativeWithState (addF : Int → Int → Int)
    (sval due : Int) (s : VTState) :
    Option PyErr × VTState × List (Int × Int) :=
  VirtualTimeScheduler.scheduleAbsoluteWithState sval (addF s.clock due) s

/-- Embeds HistoricalScheduler.add (lines 492-493): absolute plus relative. -/
def HistoricalScheduler.add (absolute relative : Int) : Int :=
  absolute + relative

/-- The recursive-wrapper cache of a CatchScheduler (fields initialized at
lines 181-182): the inner scheduler last seen and the wrapper built for it,
both embedded by identity as Nat ids, plus a counter supplying the id of
the next wrapper the scheduler would construct. -/
structure CatchState where
  recursiveOriginal : Option Nat
  recursiveWrapper : Option Nat
  nextId : Nat
  deriving DecidableEq, Repr

/-- Embeds CatchScheduler._getRecursiveWrapper (lines 192-203): when the
requested inner scheduler differs from the one currently cached, a fresh
wrapper is built (given the next free id) and both cache fields are
replaced; the stored wrapper is then returned. -/
def CatchScheduler.getRecursiveWrapper (sid : Nat) (st : CatchState) :
    Option Nat × CatchState :=
  if st.recursiveOriginal ≠ some sid then
    (some st.nextId, ⟨some sid, some st.nextId, st.nextId + 1⟩)
  else
    (st.recursiveWrapper, st)

/-- Embeds CatchWrapper.__call__ (lines 150-155): the wrapped action runs,
receiving the parent's recursive wrapper for the executing scheduler; a
fault it raises is passed to the parent's handler, and is swallowed
(returning the empty disposable) when the handler accepts it, re-raised
unchanged otherwise. -/
def CatchWrapper.call (handler : PyErr → Bool)
    (action : Option Nat → Int → Except PyErr DVal) (parent : CatchState)
    (selfSched : Nat) (sval : Int) : Except PyErr DVal × CatchState :=
  let p := CatchScheduler.getRecursiveWrapper selfSched parent
  match action p.1 sval with
  | Except.ok d => (Except.ok d, p.2)
  | Except.error e =>
    if handler e then (Except.ok DVal.empty, p.2) else (Except.error e, p.2)

/-- Line 207 of CatchScheduler.schedulePeriodicWithState binds failureLock
to the RLock factory function itself (the call parentheses are missing),
and a plain function does not support the context-manager protocol. -/
def failureLockIsContextManager : Bool := false

/-- Embeds the per-tick closure scheduled of
CatchScheduler.schedulePeriodicWithState (lines 210-227). The tick first
executes the with-statement on failureLock, which raises TypeError because
failureLock holds a plain function; the guarded body is embedded as
written after that guard: the failed flag short-circuits the tick, the
user action runs otherwise, and on a fault the failed flag is set and line
222 reads the nonexistent attribute self.handler (the field set in
__init__ is _handler), raising AttributeError before d.dispose() is
reached. The result is the tick's outcome together with the failed flag
after the tick and whether the periodic handle d was disposed. -/
def CatchScheduler.scheduledTick (handler : PyErr → Bool)
    (action : Int → Except PyErr Int) (failed : Bool) (sval : Int) :
    Except PyErr (Option Int) × Bool × Bool :=
  if failureLockIsContextManager then
    if failed then (Except.ok none, failed, false)
    else
      match action sval with
      | Except.ok r => (Except.ok (some r), failed, false)
      | Except.error _ => (Except.error PyErr.attributeError, true, false)
  else (Except.error PyErr.typeError, failed, false)

/-- Embeds Scheduler.scheduleWithRelativeAndState (line 96-97) as bound on
the CurrentThreadScheduler singleton: that call passes three arguments
(state, dueTime, action) to the bound _scheduleRelative, but line 295
declares _scheduleRelative with parameters (dueTime, action) only — the
state parameter is missing — so every such call raises TypeError before
any queue exists or any item is enqueued. The second component records the
invocations performed (none). -/
def CurrentThreadScheduler.scheduleWithRelativeAndState (sval dueTime : Int) :
    Except PyErr DVal × List Int :=
  (Except.error PyErr.typeError, [])

/-- Embeds Scheduler.scheduleWithState on the CurrentThreadScheduler:
_scheduleNow (lines 292-293) forwards to scheduleWithRelativeAndState with
due time 0. -/
def CurrentThreadScheduler.scheduleWithState (sval : Int) :
    Except PyErr DVal × List Int :=
  CurrentThreadScheduler.scheduleWithRelativeAndState sval 0

/-- The composite cancelable group of a RecursiveScheduledFunction.
Modelled from the spec: a composite disposable holds a mutable set of
tokens and a disposed flag. -/
structure CDGroup where
  members : List Nat
  disposed : Bool
  deriving DecidableEq, Repr

/-- The world a single recursive-scheduling step acts on: the token
allocator, the set of disposed tokens, the at-most-one pending scheduled
callback (token and carried state), the shared group, the coordinator's
isDone and isAdded flags and cancel field (lines 595-597, 600, 605), and
the record of user-action invocations performed. -/
structure RSFWorld where
  nextTok : Nat
  tokDisposed : List Nat
  pending : Option (Nat × Int)
  group : CDGroup
  isDone : Bool
  isAdded : Bool
  cancel : Nat
  invoked : List Int
  deriving DecidableEq, Repr

/-- Modelled from the spec: disposing a cancellation token is idempotent. -/
def disposeTok (t : Nat) (w : RSFWorld) : RSFWorld :=
  if t ∈ w.tokDisposed then w else { w with tokDisposed := t :: w.tokDisposed }

/-- Modelled from the spec: CompositeDisposable.add retains the token, and
adding to an already disposed composite immediately disposes the addition
instead of retaining it. -/
def groupAdd (t : Nat) (w : RSFWorld) : RSFWorld :=
  if w.group.disposed then disposeTok t w
  else { w with group := { w.group with members := w.group.members ++ [t] } }

/-- Modelled from the spec: CompositeDisposable.remove stops retaining the
token. -/
def groupRemove (t : Nat) (w : RSFWorld) : RSFWorld :=
  { w with group := { w.group with members := w.group.members.erase t } }

/-- Modelled from the spec: disposing the composite disposes and clears
all held tokens. -/
def groupDispose (w : RSFWorld) : RSFWorld :=
  { w with tokDisposed := w.group.members ++ w.tokDisposed,
           group := ⟨[], true⟩ }

/-- Embeds RecursiveScheduledFunction.schedulerCallback (lines 616-625):
under the lock, a registered step's token is removed from the group, and
an unregistered step marks isDone; then self.run(state) invokes the user
action, embedded as recording the carried state. -/
def RecursiveScheduledFunction.schedulerCallback (sval : Int) (w : RSFWorld) :
    RSFWorld :=
  let w1 := if w.isAdded then groupRemove w.cancel w else { w with isDone := true }
  { w1 with invoked := w1.invoked ++ [sval] }

/-- The deferred resolution of the registration/execution race: the inner
scheduler's scheduleWithState allocates a fresh token and leaves the
scheduler callback pending, so registration into the group completes
before the step executes. -/
def scheduleDeferred (sval : Int) (w : RSFWorld) : Nat × RSFWorld :=
  (w.nextTok, { w with nextTok := w.nextTok + 1,
                       pending := some (w.nextTok, sval) })

/-- The immediate resolution of the registration/execution race: the inner
scheduler runs the scheduler callback synchronously inside the scheduling
call, before its token is returned and registered. -/
def scheduleImmediate (sval : Int) (w : RSFWorld) : Nat × RSFWorld :=
  (w.nextTok,
   RecursiveScheduledFunction.schedulerCallback sval { w with nextTok := w.nextTok + 1 })

/-- Embeds RecursiveScheduledFunction.actionCallback (lines 595-614) for a
continuation without a due time: the flags are reset, the next step is
scheduled through the given scheduling strategy, its token is stored in
cancel, and under the lock the token is added to the group and isAdded set
unless the step already ran and marked isDone. -/
def RecursiveScheduledFunction.actionCallback
    (sched : Int → RSFWorld → Nat × RSFWorld) (sval : Int) (w : RSFWorld) :
    RSFWorld :=
  let w0 := { w with isDone := false, isAdded := false }
  let p := sched sval w0
  let w1 := { p.2 with cancel := p.1 }
  if w1.isDone then w1
  else { (groupAdd w1.cancel w1) with isAdded := true }

/-- Embeds the cancellation check every queue-backed scheduler performs on
a dequeued item before invoking it (getNext at lines 472-481 and
ScheduledItem.isCancelled at lines 663-667): a pending step whose token
has been disposed is dropped without invoking its action; otherwise the
scheduler callback runs. -/
def runPending (w : RSFWorld) : RSFWorld :=
  match w.pending with
  | none => w
  | some (tok, sval) =>
    let w1 := { w with pending := none }
    if tok ∈ w1.tokDisposed then w1
    else RecursiveScheduledFunction.schedulerCallback sval w1

/-- Helper: the drain loop never moves the clock backward, for a comparer
that reports strictly-later only for numerically later times. -/
theorem startLoop_clock_le (cmp : Int → Int → Int)
    (hpos : ∀ a b : Int, 0 < cmp a b → b < a) (u : Option Int) :
    ∀ (q : List QItem) (c : Int), c ≤ (startLoop cmp u c q).clock := by
  intro q
  induction q with
  | nil => intro c; simp [startLoop]
  | cons i rest ih =>
    intro c
    simp only [startLoop]
    by_cases hc : i.cancelled
    · simpa [hc] using ih c
    · by_cases hl : tooLate cmp u i.dueTime
      · simp [hc, hl]
      · simp only [hc, hl, if_false, Bool.false_eq_true, if_neg, ite_false]
        have h1 : c ≤ nextClock cmp c i.dueTime := by
          unfold nextClock
          by_cases hp : 0 < cmp i.dueTime c
          · simpa [hp] using le_of_lt (hpos _ _ hp)
          · simp [hp]
        exact le_trans h1 (ih (nextClock cmp c i.dueTime))

/-- Helper: start never moves the clock backward. -/
theorem start_clock_le (cmp : Int → Int → Int)
    (hpos : ∀ a b : Int, 0 < cmp a b → b < a) (u : Option Int) (s : VTState) :
    s.clock ≤ (VirtualTimeScheduler.start cmp u s).2.1.clock := by
  unfold VirtualTimeScheduler.start
  by_cases he : s.isEnabled
  · simp [he]
  · simpa [he] using startLoop_clock_le cmp hpos u s.queue s.clock

/-- Helper: advanceTo never moves the clock backward. -/
theorem advanceTo_clock_le (cmp : Int → Int → Int)
    (hpos : ∀ a b : Int, 0 < cmp a b → b < a) (t : Int) (s : VTState) :
    s.clock ≤ (VirtualTimeScheduler.advanceTo cmp t s).2.1.clock := by
  unfold VirtualTimeScheduler.advanceTo
  by_cases h1 : cmp t s.clock < 0
  · simp [h1]
  · by_cases h2 : cmp t s.clock = 0
    · simp [h1, h2]
    · simpa [h1, h2] using start_clock_le cmp hpos (some t) s

/-- Claim C3: the virtual-time clock is monotonically non-decreasing: no
operation of the scheduler (start, advanceTo, advanceBy, sleep, or a
scheduling call) ever decreases the clock, and during start the clock is
set to the popped item's due time only when that due time is strictly
later than the clock — a due time at or before the clock leaves it
unchanged. Stated for every comparer whose sign agrees with the numeric
order of times, as defaultSubComparer's does. -/
theorem c3_clock_monotonic (cmp : Int → Int → Int)
    (hpos : ∀ a b : Int, 0 < cmp a b → b < a)
    (hneg : ∀ a b : Int, cmp a b < 0 → a < b)
    (addF : Int → Int → Int) (s : VTState) (u : Option Int)
    (t due sval : Int) :
    s.clock ≤ (VirtualTimeScheduler.start cmp u s).2.1.clock ∧
    s.clock ≤ (VirtualTimeScheduler.advanceTo cmp t s).2.1.clock ∧
    s.clock ≤ (VirtualTimeScheduler.advanceBy cmp addF t s).2.1.clock ∧
    s.clock ≤ (VirtualTimeScheduler.sleep cmp addF t s).2.1.clock ∧
    s.clock ≤ (VirtualTimeScheduler.scheduleAbsoluteWithState sval due s).2.1.clock ∧
    s.clock ≤ (VirtualTimeScheduler.scheduleRelativeWithState addF sval due s).2.1.clock ∧
    (due ≤ s.clock → nextClock cmp s.clock due = s.clock) ∧
    (0 < cmp due s.clock → nextClock cmp s.clock due = due) := by
  refine ⟨start_clock_le cmp hpos u s, advanceTo_clock_le cmp hpos t s,
    advanceTo_clock_le cmp hpos (addF s.clock t) s, ?_, le_refl _, le_refl _, ?_, ?_⟩
  · unfold VirtualTimeScheduler.sleep
    by_cases h : 0 ≤ cmp s.clock (addF s.clock t)
    · simp [h]
    · have := hneg s.clock (addF s.clock t) (by omega)
      simp [h]
      omega
  · intro h
    unfold nextClock
    have : ¬ 0 < cmp due s.clock := by
      intro hlt
      exact absurd (hpos _ _ hlt) (by omega)
    simp [this]
  · intro h
    unfold nextClock
    simp [h]

/-- Witness for C3 at the default comparer and Historical add, on a state
with clock 3 and one pending item due at time 1. -/
theorem c3_clock_monotonic_witness :
    (3 : Int) ≤ (VirtualTimeScheduler.start defaultSubComparer none
      ⟨3, false, [⟨9, 1, false⟩]⟩).2.1.clock ∧
    (3 : Int) ≤ (VirtualTimeScheduler.advanceTo defaultSubComparer 4
      ⟨3, false, [⟨9, 1, false⟩]⟩).2.1.clock ∧
    (3 : Int) ≤ (VirtualTimeScheduler.advanceBy defaultSubComparer
      HistoricalScheduler.add 4 ⟨3, false, [⟨9, 1, false⟩]⟩).2.1.clock ∧
    (3 : Int) ≤ (VirtualTimeScheduler.sleep defaultSubComparer
      HistoricalScheduler.add 4 ⟨3, false, [⟨9, 1, false⟩]⟩).2.1.clock ∧
    (3 : Int) ≤ (VirtualTimeScheduler.scheduleAbsoluteWithState 0 2
      ⟨3, false, [⟨9, 1, false⟩]⟩).2.1.clock ∧
    (3 : Int) ≤ (VirtualTimeScheduler.scheduleRelativeWithState
      HistoricalScheduler.add 0 2 ⟨3, false, [⟨9, 1, false⟩]⟩).2.1.clock ∧
    ((2 : Int) ≤ (3 : Int) → nextClock defaultSubComparer 3 2 = 3) ∧
    (0 < defaultSubComparer 2 3 → nextClock defaultSubComparer 3 2 = 2) :=
  c3_clock_monotonic defaultSubComparer
    (by intro a b h; simp only [defaultSubComparer] at h; omega)
    (by intro a b h; simp only [defaultSubComparer] at h; omega)
    HistoricalScheduler.add ⟨3, false, [⟨9, 1, false⟩]⟩ none 4 2 0

/-- Claim C2 counterexample: the claim that advanceTo(t) runs start(t)
whenever t does not precede the clock fails when t equals the clock: on a
scheduler at clock 0 with one pending item due at 0, advanceTo 0 returns
at once and invokes nothing, while start 0 pops and invokes that item
(and then escapes with queue.Empty on the exhausted queue). -/
theorem c2_advanceTo_ne_start :
    VirtualTimeScheduler.advanceTo defaultSubComparer 0 ⟨0, false, [⟨7, 0, false⟩]⟩ ≠
      VirtualTimeScheduler.start defaultSubComparer (some 0) ⟨0, false, [⟨7, 0, false⟩]⟩ := by
  decide

/-- Claim C2 as amended: advanceTo(t) with t before the clock raises
Argument-out-of-range and performs no side effect (state unchanged,
nothing invoked); with t equal to the clock it returns immediately,
also with no side effect, without running start; with t after the clock
it runs start(t). -/
theorem c2_advanceTo_cases (cmp : Int → Int → Int) (t : Int) (s : VTState) :
    (cmp t s.clock < 0 →
      VirtualTimeScheduler.advanceTo cmp t s = (some PyErr.argumentOutOfRange, s, [])) ∧
    (cmp t s.clock = 0 →
      VirtualTimeScheduler.advanceTo cmp t s = (none, s, [])) ∧
    (0 < cmp t s.clock →
      VirtualTimeScheduler.advanceTo cmp t s = VirtualTimeScheduler.start cmp (some t) s) := by
  unfold VirtualTimeScheduler.advanceTo
  refine ⟨fun h => ?_, fun h => ?_, fun h => ?_⟩
  · simp [h]
  · simp [h]
  · have h1 : ¬ cmp t s.clock < 0 := by omega
    have h2 : ¬ cmp t s.clock = 0 := by omega
    simp [h1, h2]

/-- Witness for the amended C2: each branch exercised at a concrete
scheduler state. -/
theorem c2_advanceTo_cases_witness :
    (defaultSubComparer (-1) 0 < 0 →
      VirtualTimeScheduler.advanceTo defaultSubComparer (-1) ⟨0, false, []⟩ =
        (some PyErr.argumentOutOfRange, ⟨0, false, []⟩, [])) ∧
    (defaultSubComparer (-1) 0 = 0 →
      VirtualTimeScheduler.advanceTo defaultSubComparer (-1) ⟨0, false, []⟩ =
        (none, ⟨0, false, []⟩, [])) ∧
    (0 < defaultSubComparer (-1) 0 →
      VirtualTimeScheduler.advanceTo defaultSubComparer (-1) ⟨0, false, []⟩ =
        VirtualTimeScheduler.start defaultSubComparer (some (-1)) ⟨0, false, []⟩) :=
  c2_advanceTo_cases defaultSubComparer (-1) ⟨0, false, []⟩

/-- Claim C10: a re-entrant call to start (isEnabled already true) returns
immediately: no item is popped, nothing is invoked, and the clock, the
queue and the isEnabled flag are all unchanged. -/
theorem c10_reentrant_start_noop (cmp : Int → Int → Int) (u : Option Int)
    (s : VTState) (h : s.isEnabled = true) :
    VirtualTimeScheduler.start cmp u s = (none, s, []) := by
  unfold VirtualTimeScheduler.start
  simp [h]

/-- Witness for C10 on a concrete in-progress scheduler state with a
pending item. -/
theorem c10_reentrant_start_noop_witness :
    VirtualTimeScheduler.start defaultSubComparer none ⟨2, true, [⟨1, 3, false⟩]⟩ =
      (none, ⟨2, true, [⟨1, 3, false⟩]⟩, []) :=
  c10_reentrant_start_noop defaultSubComparer none ⟨2, true, [⟨1, 3, false⟩]⟩ rfl

/-- Claim C9: normalize returns 0 on every negative input and returns
non-negative inputs unchanged; in particular normalize (-5) = 0 and
normalize 7 = 7. -/
theorem c9_normalize_clamps (t : Rat) :
    (t < 0 → Scheduler.normalize t = 0) ∧
    (0 ≤ t → Scheduler.normalize t = t) ∧
    Scheduler.normalize (-5) = 0 ∧ Scheduler.normalize 7 = 7 := by
  unfold Scheduler.normalize
  refine ⟨fun h => if_pos h, fun h => if_neg (not_lt.mpr h), ?_, ?_⟩ <;> norm_num

/-- Witness for C9 at the inputs named by the claim. -/
theorem c9_normalize_clamps_witness :
    Scheduler.normalize (-5) = 0 ∧ Scheduler.normalize 7 = 7 :=
  ⟨(c9_normalize_clamps (-5)).1 (by norm_num), (c9_normalize_clamps 7).2.1 (by norm_num)⟩

/-- Claim C1, evaluated on the code: on a HistoricalScheduler at clock 0
with the default comparer, scheduling state 1 at relative delay 10 raises
NameError (line 425 references the undefined name run) and leaves the
scheduler unchanged; so does scheduling state 2 at delay 5; start on the
resulting (still empty) queue raises queue.Empty with no invocation and
the clock still 0 — not the claimed invocations [(2 at 5), (1 at 10)] and
final clock 10. -/
theorem c1_historical_schedule_raises :
    VirtualTimeScheduler.scheduleRelativeWithState HistoricalScheduler.add 1 10
      ⟨0, false, []⟩ = (some PyErr.nameError, ⟨0, false, []⟩, []) ∧
    VirtualTimeScheduler.scheduleRelativeWithState HistoricalScheduler.add 2 5
      ⟨0, false, []⟩ = (some PyErr.nameError, ⟨0, false, []⟩, []) ∧
    VirtualTimeScheduler.start defaultSubComparer none ⟨0, false, []⟩ =
      (some PyErr.queueEmpty, ⟨0, true, []⟩, []) :=
  ⟨rfl, rfl, rfl⟩

/-- Claim C4: when a wrapped action raises a fault, the CatchWrapper call
swallows it and returns the empty disposable if the handler accepts the
fault, and re-raises the identical fault if the handler rejects it. -/
theorem c4_catch_wrapper_fault_policy (handler : PyErr → Bool)
    (action : Option Nat → Int → Except PyErr DVal) (parent : CatchState)
    (selfSched : Nat) (sval : Int) (e : PyErr)
    (ha : action (CatchScheduler.getRecursiveWrapper selfSched parent).1 sval
      = Except.error e) :
    (handler e = true →
      CatchWrapper.call handler action parent selfSched sval =
        (Except.ok DVal.empty, (CatchScheduler.getRecursiveWrapper selfSched parent).2)) ∧
    (handler e = false →
      CatchWrapper.call handler action parent selfSched sval =
        (Except.error e, (CatchScheduler.getRecursiveWrapper selfSched parent).2)) := by
  refine ⟨fun h => ?_, fun h => ?_⟩ <;> simp [CatchWrapper.call, ha, h]

/-- Witness for C4: an always-raising action under an always-accepting
handler, on a fresh CatchScheduler wrapping scheduler 0. -/
theorem c4_catch_wrapper_fault_policy_witness :
    ((fun _ : PyErr => true) (PyErr.userFault 3) = true →
      CatchWrapper.call (fun _ => true) (fun _ _ => Except.error (PyErr.userFault 3))
          ⟨none, none, 0⟩ 0 0 =
        (Except.ok DVal.empty, ⟨some 0, some 0, 1⟩)) ∧
    ((fun _ : PyErr => true) (PyErr.userFault 3) = false →
      CatchWrapper.call (fun _ => true) (fun _ _ => Except.error (PyErr.userFault 3))
          ⟨none, none, 0⟩ 0 0 =
        (Except.error (PyErr.userFault 3), ⟨some 0, some 0, 1⟩)) :=
  c4_catch_wrapper_fault_policy (fun _ => true)
    (fun _ _ => Except.error (PyErr.userFault 3)) ⟨none, none, 0⟩ 0 0
    (PyErr.userFault 3) rfl

/-- Claim C5 counterexample: the wrapper cache is not one-to-one over all
inner schedulers encountered: starting from a fresh cache, looking up
scheduler 0, then scheduler 1, then scheduler 0 again returns wrapper 0
for the first lookup of scheduler 0 but wrapper 2 for the second — the
same inner scheduler receives two distinct wrappers when lookups for
different inner schedulers are interleaved. -/
theorem c5_wrapper_cache_not_one_to_one :
    (CatchScheduler.getRecursiveWrapper 0 ⟨none, none, 0⟩).1 = some 0 ∧
    (CatchScheduler.getRecursiveWrapper 0
      ((CatchScheduler.getRecursiveWrapper 1
        ((CatchScheduler.getRecursiveWrapper 0 ⟨none, none, 0⟩).2)).2)).1 = some 2 ∧
    (some 0 : Option Nat) ≠ some 2 := by
  decide

/-- Claim C5 as amended: the cache is a single most-recent-entry slot — a
lookup for the same inner scheduler as the immediately preceding lookup
returns the same wrapper instance and leaves the cache unchanged (a lookup
for a different inner scheduler replaces the slot). -/
theorem c5_wrapper_cache_single_slot (st : CatchState) (sid : Nat) :
    CatchScheduler.getRecursiveWrapper sid
        (CatchScheduler.getRecursiveWrapper sid st).2 =
      CatchScheduler.getRecursiveWrapper sid st := by
  unfold CatchScheduler.getRecursiveWrapper
  by_cases h : st.recursiveOriginal = some sid
  · simp [h]
  · simp [h]

/-- Claim C6, evaluated on the code: the first tick of a periodic schedule
under CatchScheduler raises TypeError from the with-statement on
failureLock (line 207 stores the RLock factory itself), before the user
action can run or the failed flag or disposal protocol can act — here
under an always-accepting handler and an action that raises. -/
theorem c6_periodic_tick_raises :
    CatchScheduler.scheduledTick (fun _ => true)
      (fun _ => Except.error (PyErr.userFault 1)) false 0 =
      (Except.error PyErr.typeError, false, false) :=
  rfl

/-- Claim C7, evaluated on the code: every scheduling call on the
CurrentThreadScheduler raises TypeError (the bound _scheduleRelative lacks
the state parameter), so an action A scheduled at due time 0 is never
invoked and no [A, B] execution order can arise. -/
theorem c7_current_thread_schedule_raises :
    CurrentThreadScheduler.scheduleWithState 0 =
      (Except.error PyErr.typeError, ([] : List Int)) ∧
    CurrentThreadScheduler.scheduleWithRelativeAndState 1 0 =
      (Except.error PyErr.typeError, ([] : List Int)) :=
  ⟨rfl, rfl⟩

/-- Claim C8: disposing the shared group between step n's completion and
step n+1's execution guarantees step n+1 never invokes its action, in
both race resolutions. Deferred resolution (registration first): after the
continuation registers the fresh token, disposing the group disposes that
token and the scheduler's cancellation check drops the pending step, so
the set of performed invocations stays exactly what it was. Immediate
resolution (execution first): the step runs inside the continuation call
itself — before step n could complete — leaving nothing pending, so after
disposing the group no further invocation ever occurs. -/
theorem c8_recursive_cancellation (w : RSFWorld) (sval : Int)
    (hg : w.group.disposed = false) (hp : w.pending = none) :
    (runPending (groupDispose
      (RecursiveScheduledFunction.actionCallback scheduleDeferred sval w))).invoked
        = w.invoked ∧
    (RecursiveScheduledFunction.actionCallback scheduleImmediate sval w).invoked
        = w.invoked ++ [sval] ∧
    (RecursiveScheduledFunction.actionCallback scheduleImmediate sval w).pending
        = none ∧
    (runPending (groupDispose
      (RecursiveScheduledFunction.actionCallback scheduleImmediate sval w))).invoked
        = w.invoked ++ [sval] := by
  refine ⟨?_, ?_, ?_, ?_⟩
  · simp [RecursiveScheduledFunction.actionCallback, scheduleDeferred,
      RecursiveScheduledFunction.schedulerCallback, groupAdd, groupDispose,
      groupRemove, disposeTok, runPending, hg]
  · simp [RecursiveScheduledFunction.actionCallback, scheduleImmediate,
      RecursiveScheduledFunction.schedulerCallback, groupAdd, groupDispose,
      groupRemove, disposeTok, runPending]
  · simp [RecursiveScheduledFunction.actionCallback, scheduleImmediate,
      RecursiveScheduledFunction.schedulerCallback, groupAdd, groupDispose,
      groupRemove, disposeTok, runPending, hp]
  · simp [RecursiveScheduledFunction.actionCallback, scheduleImmediate,
      RecursiveScheduledFunction.schedulerCallback, groupAdd, groupDispose,
      groupRemove, disposeTok, runPending, hp]

/-- Witness for C8 on the empty initial world with carried state 5. -/
theorem c8_recursive_cancellation_witness :
    (runPending (groupDispose (RecursiveScheduledFunction.actionCallback
      scheduleDeferred 5 ⟨0, [], none, ⟨[], false⟩, false, false, 0, []⟩))).invoked
        = ([] : List Int) ∧
    (RecursiveScheduledFunction.actionCallback scheduleImmediate 5
      ⟨0, [], none, ⟨[], false⟩, false, false, 0, []⟩).invoked = [5] ∧
    (RecursiveScheduledFunction.actionCallback scheduleImmediate 5
      ⟨0, [], none, ⟨[], false⟩, false, false, 0, []⟩).pending = none ∧
    (runPending (groupDispose (RecursiveScheduledFunction.actionCallback
      scheduleImmediate 5 ⟨0, [], none, ⟨[], false⟩, false, false, 0, []⟩))).invoked
        = [5] :=
  c8_recursive_cancellation ⟨0, [], none, ⟨[], false⟩, false, false, 0, []⟩ 5 rfl rfl
